import Mathlib

/-!
Verification of the halolib configuration subsystem (src/halolib/ssm.py) and the
HTTP dispatcher error contract (src/halolib/flask/viewsx.py), as a shallow
embedding in Lean 4.

Modelling conventions:
* Time is passed explicitly: `now` is the value `current_milli_time()` would
  return at the relevant call site (epoch milliseconds, as `Int`).
* `json.loads` outcomes are modelled by `JsonParseOutcome`: a parameter value
  string is represented by the result of parsing it (success with a `Json`
  value, or a decode error).
* The remote parameter source (`boto3` SSM client) is modelled by the outcome
  of its single call: `SsmFetchOutcome` for `get_parameters_by_path` and
  `PutOutcome` for `put_parameter`.
* A `configparser.ConfigParser` is modelled as an insertion-ordered association
  list from section name to section, where a section is an insertion-ordered
  association list from option key to value. Values are kept as parsed `Json`
  (the `str()` conversion and option-key case folding that ConfigParser applies
  internally are abstracted away; what is modelled faithfully is which sections
  and option keys exist and which parameter supplied each value).
  `ConfigParser.read_dict` merges into an existing section per option
  (`self.set(section, key, value)` for each key), it does not replace the
  section wholesale.
* Python exceptions are modelled as values: functions that catch them return
  ordinary results, and `Except` is used where an exception would propagate.
-/

namespace Halolib

/-- JSON values as produced by `json.loads` (numbers restricted to integers;
no claim involves fractional numbers). -/
inductive Json where
  | null
  | bool (b : Bool)
  | num (n : Int)
  | str (s : String)
  | arr (elems : List Json)
  | obj (fields : List (String × Json))

/-- Outcome of applying `json.loads` to a value string: a parsed value, or a
`json.decoder.JSONDecodeError` with its message. -/
inductive JsonParseOutcome where
  | ok (v : Json)
  | error (msg : String)

/-- One parameter returned by `get_parameters_by_path`: its hierarchical name
and its value string, the latter represented by its JSON parse outcome. -/
structure Param where
  name : String
  value : JsonParseOutcome

/-- Outcome of the `get_parameters_by_path` call inside `load_config`:
a parameter list, a `botocore` `ClientError`, or any other exception. -/
inductive SsmFetchOutcome where
  | ok (params : List Param)
  | clientError (msg : String)
  | otherError (msg : String)

/-- A ConfigParser section: option key to value, insertion ordered. -/
abbrev ConfigSection := List (String × Json)

/-- A ConfigParser, as held in `Cache.items`: section name to section,
insertion ordered. -/
abbrev ConfigMap := List (String × ConfigSection)

/-- Dict-style update of an association list: replace the binding for `k` in
place if present, else append it (models Python dict insertion order and
`ConfigParser.set`). -/
def setAssoc (k : String) (v : α) : List (String × α) → List (String × α)
  | [] => [(k, v)]
  | (k₂, v₂) :: rest => if k₂ = k then (k, v) :: rest else (k₂, v₂) :: setAssoc k v rest

/-- `configuration.read_dict({section_name: config_values})` for one section:
if the section exists its options are updated one by one (later writes win per
option key), otherwise the section is added; the section is never replaced
wholesale. -/
def readDictSection (cfg : ConfigMap) (sectionName : String)
    (values : List (String × Json)) : ConfigMap :=
  let current := (List.lookup sectionName cfg).getD []
  let updated := values.foldl (fun sec kv => setAssoc kv.1 kv.2 sec) current
  setAssoc sectionName updated cfg

/-- Split a character list at every occurrence of `sep`, keeping empty
pieces, exactly as Python `str.split(sep)` does for a one-character
separator (`"".split("/") == [""]`, `"a//b".split("/") == ["a", "", "b"]`). -/
def splitChars (sep : Char) : List Char → List (List Char)
  | [] => [[]]
  | c :: rest =>
    let r := splitChars sep rest
    if c = sep then [] :: r
    else
      match r with
      | [] => [[c]]
      | s :: ss => (c :: s) :: ss

/-- Python `name.split(sep)` for a one-character separator. -/
def pySplit (s : String) (sep : Char) : List String :=
  (splitChars sep s.toList).map (fun cs => String.mk cs)

/-- `param.get('Name').split("/")`, last element: the section name is the
final path segment of the parameter name (`split` never yields an empty list,
so the default of `getLastD` is unreachable). -/
def lastSegment (name : String) : String :=
  (pySplit name '/').getLastD ""

/-- The `for param in param_details.get('Parameters')` loop of `load_config`.
Parameters are processed in order; the first parameter whose value fails JSON
parsing or parses to a non-object raises, the exception is caught by the
surrounding `try`, and the `finally: return configuration` returns the
configuration accumulated so far. -/
def loadConfigLoop : ConfigMap → List Param → ConfigMap
  | cfg, [] => cfg
  | cfg, p :: rest =>
    match p.value with
    | .error _ => cfg
    | .ok v =>
      match v with
      | .obj fields => loadConfigLoop (readDictSection cfg (lastSegment p.name) fields) rest
      | _ => cfg

/-- `load_config(region_name, ssm_parameter_path)`: fetch all parameters at
the path and populate a fresh ConfigParser; a `ClientError` or any other
exception from the fetch is caught and logged, and the (still empty)
configuration is returned by the `finally` clause. An absent or empty
`Parameters` list skips the loop. -/
def load_config (fetch : SsmFetchOutcome) : ConfigMap :=
  match fetch with
  | .ok params => loadConfigLoop [] params
  | .clientError _ => []
  | .otherError _ => []

/-- The `Cache` object: an absolute expiration instant (epoch ms) and the
grouped configuration items. -/
structure Cache where
  expiration : Int
  items : ConfigMap

/-- `DEFAULT_EXPIRY = 3 * 60 * 1000`: default expiry is 3 minutes. -/
def DEFAULT_EXPIRY : Int := 3 * 60 * 1000

/-- The `HaloError` raised by `load_cache` on invalid arguments (the spec
calls this error kind `ConfigError`). -/
inductive ConfigError where
  | haloError (msg : String)
  deriving Repr, DecidableEq

/-- `load_cache(config, expiryMs)`: raises `HaloError` when `config is None`
(and only then: any non-`None` config, including an empty one, passes), then
raises `HaloError` when `expiryMs <= 0`; otherwise builds a cache whose
expiration is `current_milli_time() + expiryMs`. `now` is the value
`current_milli_time()` returns during the call. -/
def load_cache (config : Option ConfigMap) (expiryMs : Int) (now : Int) :
    Except ConfigError Cache :=
  match config with
  | none => .error (.haloError "you need to provide a non-empty config")
  | some items =>
    if expiryMs ≤ 0 then
      .error (.haloError "you need to specify an expiry (ms) greater than 0, or leave it undefined")
    else
      .ok ⟨now + expiryMs, items⟩

/-- `get_cache(region_name, path)`: `load_cache(load_config(region_name, path))`
with the default expiry. `fetch` is the outcome of the remote call made inside
`load_config`; `now` is the clock value when `load_cache` reads it. -/
def get_cache (fetch : SsmFetchOutcome) (now : Int) : Except ConfigError Cache :=
  load_cache (some (load_config fetch)) DEFAULT_EXPIRY now

/-- The `MyConfig` accessor: a cache plus the path and region used for
refreshes. -/
structure MyConfig where
  cache : Cache
  path : String
  region_name : String

/-- Result of `MyConfig.get_param`: a returned section value, a raised
`CacheKeyError`, or a raised `CacheExpireError`. -/
inductive GetParamResult where
  | value (v : ConfigSection)
  | cacheKeyError (msg : String)
  | cacheExpireError (msg : String)

/-- Observable outcome of one `get_param` invocation: the accessor state
after the call (`self.cache` may have been reassigned), the result, and the
number of calls made to the remote parameter source during the invocation. -/
structure GetParamOutcome where
  state : MyConfig
  result : GetParamResult
  remoteCalls : Nat

/-- `MyConfig.get_param(key)`: read the clock; if `now <= self.cache.expiration`
return the cached item or raise `CacheKeyError`; otherwise reassign
`self.cache = get_cache(self.region_name, self.path)` and return the item from
the new cache if present, else raise `CacheExpireError`. `remote` maps the
(region, path) pair the code passes to `get_cache` to the fetch outcome the
remote source produces; a `HaloError` out of `load_cache` would propagate
(hence the `Except`), though `get_cache` in fact never raises one. -/
def get_param (cfg : MyConfig) (key : String) (now : Int)
    (remote : String → String → SsmFetchOutcome) :
    Except ConfigError GetParamOutcome :=
  if now ≤ cfg.cache.expiration then
    match List.lookup key cfg.cache.items with
    | some v => .ok ⟨cfg, .value v, 0⟩
    | none => .ok ⟨cfg, .cacheKeyError ("no key in cache:" ++ key), 0⟩
  else
    match get_cache (remote cfg.region_name cfg.path) now with
    | .error e => .error e
    | .ok c =>
      match List.lookup key c.items with
      | some v => .ok ⟨⟨c, cfg.path, cfg.region_name⟩, .value v, 1⟩
      | none => .ok ⟨⟨c, cfg.path, cfg.region_name⟩, .cacheExpireError "cache expired", 1⟩

/-- `full_config_path = '/' + app_name + '/' + env + '/' + app_config_path`,
from the `HALO_APP_NAME`, `HALO_STAGE` and `HALO_FUNC_NAME` environment
variables (passed here as arguments). -/
def full_config_path (appName env funcName : String) : String :=
  "/" ++ appName ++ "/" ++ env ++ "/" ++ funcName

/-- `short_config_path = '/' + app_name + '/' + type + '/service'`, from the
`HALO_APP_NAME` and `HALO_TYPE` environment variables. -/
def short_config_path (appName typeName : String) : String :=
  "/" ++ appName ++ "/" ++ typeName ++ "/service"

/-- Outcome of the `put_parameter` call inside `set_config`: success, a
`botocore` `ClientError`, or any other exception. -/
inductive PutOutcome where
  | ok
  | clientError (msg : String)
  | otherError (msg : String)
  deriving Repr, DecidableEq

/-- Observable outcome of `set_config`: the returned boolean and the number
of `put_parameter` calls made. -/
structure SetConfigOutcome where
  result : Bool
  putCalls : Nat
  deriving Repr, DecidableEq

/-- `set_config(region_name, ssm_parameter_path, value)`: validate the value
with `json.loads(value)` (a `JSONDecodeError` is caught before any write
happens), then call `put_parameter` with overwrite; `True` on success, and
every caught error (`ClientError`, `JSONDecodeError`, anything else) falls
through to `return False`. `valueParse` is the outcome of `json.loads(value)`
and `put` the outcome the remote write would produce if reached. -/
def set_config (valueParse : JsonParseOutcome) (put : PutOutcome) : SetConfigOutcome :=
  match valueParse with
  | .error _ => ⟨false, 0⟩
  | .ok _ =>
    match put with
    | .ok => ⟨true, 1⟩
    | .clientError _ => ⟨false, 1⟩
    | .otherError _ => ⟨false, 1⟩

/-- `set_param_config(region_name, key, value)`: build the path
`full_config_path + '/' + key` and delegate to `set_config`. Returns the
path passed on together with the delegated outcome. -/
def set_param_config (appName env funcName key : String)
    (valueParse : JsonParseOutcome) (put : PutOutcome) : String × SetConfigOutcome :=
  (full_config_path appName env funcName ++ "/" ++ key, set_config valueParse put)

/-- Python `str()` applied to the `host` argument, which is `None` or a
string. -/
def pyStr : Option String → String
  | none => "None"
  | some s => s

/-- Python truthiness of the `host` argument: `None` and the empty string are
falsy. -/
def pyTruthy : Option String → Bool
  | none => false
  | some s => !s.isEmpty

/-- The value string built by `set_app_param_config`: `url` is
`"https://" + host + "/" + env` when `host` is truthy and `host` itself
otherwise, and the written value is always
`'\x7b"url":"' + str(url) + '"\x7d'`. -/
def set_app_param_config_value (env : String) (host : Option String) : String :=
  let url := if pyTruthy host then "https://" ++ pyStr host ++ "/" ++ env else pyStr host
  "\x7b\"url\":\"" ++ url ++ "\"\x7d"

/-- `set_app_param_config(region_name, host)`: build the path
`short_config_path + '/' + app_config_path` and the url-wrapping value, then
delegate to `set_config`. Returns the (path, value) pair passed to
`set_config`. -/
def set_app_param_config (appName typeName funcName env : String)
    (host : Option String) : String × String :=
  (short_config_path appName typeName ++ "/" ++ funcName,
   set_app_param_config_value env host)

/-- Python exceptions a dispatched handler may raise, one constructor per
`except` clause of `AbsBaseLinkX.do_process` plus `otherException` for any
other subclass of `Exception` (caught by the final `except Exception`) and
`systemExit` for `SystemExit`, which derives from `BaseException` only and
matches none of the clauses. -/
inductive PyExc where
  | maxTryException (msg : String)
  | haloError (msg : String)
  | haloException (msg : String)
  | ioError (msg : String)
  | valueError (msg : String)
  | importError (msg : String)
  | eofError (msg : String)
  | keyboardInterrupt (msg : String)
  | attributeError (msg : String)
  | otherException (msg : String)
  | systemExit (msg : String)
  deriving Repr, DecidableEq

/-- `str(e)`: the message carried by the exception, bound to `error_message`
by every `except` clause. -/
def excMessage : PyExc → String
  | .maxTryException m => m
  | .haloError m => m
  | .haloException m => m
  | .ioError m => m
  | .valueError m => m
  | .importError m => m
  | .eofError m => m
  | .keyboardInterrupt m => m
  | .attributeError m => m
  | .otherException m => m
  | .systemExit m => m

/-- Whether the `except` chain of `do_process` catches the exception. Each
listed class has its own clause; `except Exception` catches every remaining
`Exception` subclass; `SystemExit` subclasses `BaseException` directly and is
caught by no clause. -/
def caughtByDispatcher : PyExc → Bool
  | .maxTryException _ => true
  | .haloError _ => true
  | .haloException _ => true
  | .ioError _ => true
  | .valueError _ => true
  | .importError _ => true
  | .eofError _ => true
  | .keyboardInterrupt _ => true
  | .attributeError _ => true
  | .otherException _ => true
  | .systemExit _ => false

/-- What `self.process(request, typer, vars)` does inside the `try` block:
return a response body normally, or raise an exception. -/
inductive HandlerOutcome where
  | ok (response : String)
  | raises (e : PyExc)

/-- Result of `do_process` as seen by its caller: the handler response passed
through, the `HttpResponse(\x7b"error": error_message\x7d, status=400)` error
body (represented by the message bound at `"error"` and the status code), the
`redirect("/" + str(400))` taken when `settings.FRONT_WEB` is set, or an
uncaught exception propagating out. -/
inductive DispatchResult where
  | response (body : String)
  | errorResponse (errorMessage : String) (status : Nat)
  | redirectTo (path : String)
  | uncaught (e : PyExc)
  deriving Repr, DecidableEq

/-- `status.HTTP_400_BAD_REQUEST`. -/
def HTTP_400_BAD_REQUEST : Nat := 400

/-- `AbsBaseLinkX.do_process`, restricted to the `try`/`except` dispatch of
the handler (the pre-`try` header and locale handling and the logging calls
do not affect the returned value): a normal handler response is returned from
inside the `try`; a caught exception falls through to
`redirect("/" + str(400))` when `settings.FRONT_WEB` is set and to
`HttpResponse(\x7b"error": error_message\x7d, status=400)` otherwise; an
exception matching no clause propagates past `finally`. -/
def do_process (frontWeb : Bool) (outcome : HandlerOutcome) : DispatchResult :=
  match outcome with
  | .ok r => .response r
  | .raises e =>
    if caughtByDispatcher e then
      if frontWeb then
        .redirectTo ("/" ++ toString HTTP_400_BAD_REQUEST)
      else
        .errorResponse (excMessage e) HTTP_400_BAD_REQUEST
    else
      .uncaught e

/-! Helper lemmas shared by the claim theorems. -/

/-- `get_cache` never raises: `load_config` always returns a (possibly empty)
configuration, which is not `None`, and the default expiry is positive, so
`load_cache` always takes its success branch. -/
theorem get_cache_eq (fetch : SsmFetchOutcome) (now : Int) :
    get_cache fetch now = .ok ⟨now + DEFAULT_EXPIRY, load_config fetch⟩ := by
  simp only [get_cache, load_cache]
  rw [if_neg (by decide : ¬ DEFAULT_EXPIRY ≤ 0)]

/-- Unfolding of `get_param` in the unexpired branch. -/
theorem get_param_of_le (cfg : MyConfig) (key : String) (now : Int)
    (remote : String → String → SsmFetchOutcome) (h : now ≤ cfg.cache.expiration) :
    get_param cfg key now remote =
      match List.lookup key cfg.cache.items with
      | some v => .ok ⟨cfg, .value v, 0⟩
      | none => .ok ⟨cfg, .cacheKeyError ("no key in cache:" ++ key), 0⟩ := by
  unfold get_param
  rw [if_pos h]

/-- Unfolding of `get_param` in the expired branch: the snapshot is replaced
by the refreshed one before the key is looked up again. -/
theorem get_param_of_gt (cfg : MyConfig) (key : String) (now : Int)
    (remote : String → String → SsmFetchOutcome) (h : ¬ now ≤ cfg.cache.expiration) :
    get_param cfg key now remote =
      match List.lookup key (load_config (remote cfg.region_name cfg.path)) with
      | some v =>
          .ok ⟨⟨⟨now + DEFAULT_EXPIRY, load_config (remote cfg.region_name cfg.path)⟩,
                cfg.path, cfg.region_name⟩, .value v, 1⟩
      | none =>
          .ok ⟨⟨⟨now + DEFAULT_EXPIRY, load_config (remote cfg.region_name cfg.path)⟩,
                cfg.path, cfg.region_name⟩, .cacheExpireError "cache expired", 1⟩ := by
  unfold get_param
  rw [if_neg h, get_cache_eq]

/-- C1: for every accessor and key, when the clock at the start of
`get_param` is at most the snapshot expiration, `get_param` returns the
stored value when the key is present and raises `CacheKeyError` when it is
absent; in both cases no remote call is made and the accessor state is
unchanged. -/
theorem get_param_fresh_contract (cfg : MyConfig) (key : String) (now : Int)
    (remote : String → String → SsmFetchOutcome) (h : now ≤ cfg.cache.expiration) :
    (∀ v, List.lookup key cfg.cache.items = some v →
      get_param cfg key now remote = .ok ⟨cfg, .value v, 0⟩) ∧
    (List.lookup key cfg.cache.items = none →
      get_param cfg key now remote =
        .ok ⟨cfg, .cacheKeyError ("no key in cache:" ++ key), 0⟩) := by
  constructor
  · intro v hv
    rw [get_param_of_le cfg key now remote h, hv]
  · intro hv
    rw [get_param_of_le cfg key now remote h, hv]

/-- Witness for C1 at a concrete valid snapshot holding key `db`. -/
theorem get_param_fresh_contract_witness :
    (500 : Int) ≤ (1000 : Int) ∧
    List.lookup "db" [("db", [("host", Json.str "x")])] = some [("host", Json.str "x")] ∧
    get_param ⟨⟨1000, [("db", [("host", Json.str "x")])]⟩, "p", "r"⟩ "db" 500
        (fun _ _ => .ok []) =
      .ok ⟨⟨⟨1000, [("db", [("host", Json.str "x")])]⟩, "p", "r"⟩,
           .value [("host", Json.str "x")], 0⟩ :=
  ⟨by decide, rfl,
   (get_param_fresh_contract ⟨⟨1000, [("db", [("host", Json.str "x")])]⟩, "p", "r"⟩
       "db" 500 (fun _ _ => .ok []) (by decide)).1 [("host", Json.str "x")] rfl⟩

/-- C2: for every accessor and key, when the clock is strictly past the
snapshot expiration, `get_param` makes exactly one remote fetch using the
accessor's region and path, replaces the snapshot with the refreshed one
(expiring `DEFAULT_EXPIRY` later), returns the refreshed value when the key
is present, and raises `CacheExpireError` when the refreshed snapshot still
lacks the key. -/
theorem get_param_expired_contract (cfg : MyConfig) (key : String) (now : Int)
    (remote : String → String → SsmFetchOutcome) (h : cfg.cache.expiration < now) :
    (∀ v, List.lookup key (load_config (remote cfg.region_name cfg.path)) = some v →
      get_param cfg key now remote =
        .ok ⟨⟨⟨now + DEFAULT_EXPIRY, load_config (remote cfg.region_name cfg.path)⟩,
              cfg.path, cfg.region_name⟩, .value v, 1⟩) ∧
    (List.lookup key (load_config (remote cfg.region_name cfg.path)) = none →
      get_param cfg key now remote =
        .ok ⟨⟨⟨now + DEFAULT_EXPIRY, load_config (remote cfg.region_name cfg.path)⟩,
              cfg.path, cfg.region_name⟩, .cacheExpireError "cache expired", 1⟩) := by
  constructor
  · intro v hv
    rw [get_param_of_gt cfg key now remote (not_le.mpr h), hv]
  · intro hv
    rw [get_param_of_gt cfg key now remote (not_le.mpr h), hv]

/-- Witness for C2 at a concrete expired snapshot whose refresh returns the
requested key. -/
theorem get_param_expired_contract_witness :
    (0 : Int) < (1 : Int) ∧
    get_param ⟨⟨0, []⟩, "p", "r"⟩ "db" 1
        (fun _ _ => .ok [⟨"x/db", .ok (.obj [("host", .str "x")])⟩]) =
      .ok ⟨⟨⟨1 + DEFAULT_EXPIRY, [("db", [("host", Json.str "x")])]⟩, "p", "r"⟩,
           .value [("host", Json.str "x")], 1⟩ :=
  ⟨by decide,
   (get_param_expired_contract ⟨⟨0, []⟩, "p", "r"⟩ "db" 1
       (fun _ _ => .ok [⟨"x/db", .ok (.obj [("host", .str "x")])⟩]) (by decide)).1
     [("host", Json.str "x")] rfl⟩

/-- C4 counterexample: `load_cache` accepts an empty (but not `None`) items
mapping, returning a snapshot rather than failing with the construction
error the claim requires. -/
theorem load_cache_empty_items_cex :
    load_cache (some []) DEFAULT_EXPIRY 0 = .ok ⟨180000, []⟩ := by
  norm_num [load_cache, DEFAULT_EXPIRY]

/-- C4 as amended: `load_cache` fails with the `HaloError` construction error
when `config` is absent (`None`) — and only then: an empty mapping passes —
or when the expiry is not positive; otherwise it succeeds and the snapshot
expiration equals the current time plus the expiry. -/
theorem load_cache_contract (config : Option ConfigMap) (expiryMs now : Int) :
    (config = none →
      load_cache config expiryMs now =
        .error (.haloError "you need to provide a non-empty config")) ∧
    (∀ items, config = some items → expiryMs ≤ 0 →
      load_cache config expiryMs now =
        .error (.haloError
          "you need to specify an expiry (ms) greater than 0, or leave it undefined")) ∧
    (∀ items, config = some items → 0 < expiryMs →
      load_cache config expiryMs now = .ok ⟨now + expiryMs, items⟩) := by
  refine ⟨fun h => by rw [h]; rfl, fun items h hle => ?_, fun items h hpos => ?_⟩
  · rw [h]; simp only [load_cache]; rw [if_pos hle]
  · rw [h]; simp only [load_cache]; rw [if_neg (not_le.mpr hpos)]

/-- Witness for C4 as amended, at a concrete non-empty mapping and the
default expiry. -/
theorem load_cache_contract_witness :
    (0 : Int) < 180000 ∧
    load_cache (some [("s", [("k", Json.num 1)])]) 180000 50 =
      .ok ⟨50 + 180000, [("s", [("k", Json.num 1)])]⟩ :=
  ⟨by decide,
   (load_cache_contract (some [("s", [("k", Json.num 1)])]) 180000 50).2.2
     [("s", [("k", Json.num 1)])] rfl (by decide)⟩

/-- C5: every snapshot built by `load_cache` has expiration equal to its
creation time plus a positive expiry, whose default `DEFAULT_EXPIRY` is
180000 ms; consequently a read after expiration that refreshes strictly
increases the accessor's snapshot expiration. -/
theorem cache_expiration_invariant :
    (DEFAULT_EXPIRY = 180000 ∧ 0 < DEFAULT_EXPIRY) ∧
    (∀ (config : Option ConfigMap) (expiryMs now : Int) (cache : Cache),
      load_cache config expiryMs now = .ok cache →
      0 < expiryMs ∧ cache.expiration = now + expiryMs) ∧
    (∀ (cfg : MyConfig) (key : String) (now : Int)
        (remote : String → String → SsmFetchOutcome) (out : GetParamOutcome),
      cfg.cache.expiration < now →
      get_param cfg key now remote = .ok out →
      cfg.cache.expiration < out.state.cache.expiration) := by
  refine ⟨⟨by decide, by decide⟩, fun config expiryMs now cache h => ?_, ?_⟩
  · cases config with
    | none => simp [load_cache] at h
    | some items =>
      simp only [load_cache] at h
      by_cases hle : expiryMs ≤ 0
      · rw [if_pos hle] at h
        exact absurd h (by simp)
      · rw [if_neg hle] at h
        injection h with h2
        subst h2
        exact ⟨lt_of_not_le hle, rfl⟩
  · intro cfg key now remote out hlt hout
    rw [get_param_of_gt cfg key now remote (not_le.mpr hlt)] at hout
    have hDE : (0 : Int) < DEFAULT_EXPIRY := by decide
    cases hv : List.lookup key (load_config (remote cfg.region_name cfg.path)) with
    | some v =>
      rw [hv] at hout
      injection hout with h2
      subst h2
      show cfg.cache.expiration < now + DEFAULT_EXPIRY
      linarith
    | none =>
      rw [hv] at hout
      injection hout with h2
      subst h2
      show cfg.cache.expiration < now + DEFAULT_EXPIRY
      linarith

/-- Witness for C5 at a concrete expired snapshot refreshed from a failing
source. -/
theorem cache_expiration_invariant_witness :
    (0 : Int) < (1 : Int) ∧
    get_param ⟨⟨0, []⟩, "p", "r"⟩ "k" 1 (fun _ _ => .clientError "down") =
      .ok ⟨⟨⟨1 + DEFAULT_EXPIRY, []⟩, "p", "r"⟩, .cacheExpireError "cache expired", 1⟩ ∧
    (0 : Int) < 1 + DEFAULT_EXPIRY :=
  ⟨by decide, rfl,
   cache_expiration_invariant.2.2 ⟨⟨0, []⟩, "p", "r"⟩ "k" 1 (fun _ _ => .clientError "down")
     ⟨⟨⟨1 + DEFAULT_EXPIRY, []⟩, "p", "r"⟩, .cacheExpireError "cache expired", 1⟩
     (by decide) rfl⟩

/-- C7: `set_config` returns `True` exactly when the value parses as JSON and
the remote write succeeds; every caught error makes it return `False` after
the single write attempt (or none, when parsing failed before the write), and
no exception reaches the caller; `set_param_config` builds the namespaced
path and delegates. -/
theorem set_config_bool_contract (valueParse : JsonParseOutcome) (put : PutOutcome)
    (appName env funcName key : String) :
    ((set_config valueParse put).result = true ↔
      (∃ v, valueParse = .ok v) ∧ put = .ok) ∧
    ((∀ m, valueParse = .error m → set_config valueParse put = ⟨false, 0⟩) ∧
     (∀ v m, valueParse = .ok v → put = .clientError m →
       set_config valueParse put = ⟨false, 1⟩) ∧
     (∀ v m, valueParse = .ok v → put = .otherError m →
       set_config valueParse put = ⟨false, 1⟩)) ∧
    (set_param_config appName env funcName key valueParse put =
      (full_config_path appName env funcName ++ "/" ++ key,
       set_config valueParse put)) := by
  refine ⟨?_, ⟨?_, ?_, ?_⟩, rfl⟩
  · cases valueParse <;> cases put <;> simp [set_config]
  · intro m hm; rw [hm]; rfl
  · intro v m hv hp; rw [hv, hp]; rfl
  · intro v m hv hp; rw [hv, hp]; rfl

/-- Witness for C7 at a parse failure: the write is never attempted and
`False` is returned. -/
theorem set_config_bool_contract_witness :
    set_config (.error "bad json") .ok = ⟨false, 0⟩ :=
  (set_config_bool_contract (.error "bad json") .ok "app" "prod" "func" "key").2.1.1
    "bad json" rfl

/-- C8 counterexample: with the falsy host `""`, the written value is
`\x7b"url":""\x7d`, not the host value verbatim as the claim states. -/
theorem set_app_param_falsy_cex :
    set_app_param_config_value "prod" (some "") = "\x7b\"url\":\"\"\x7d" ∧
    set_app_param_config_value "prod" (some "") ≠ "" := by
  exact ⟨rfl, by decide⟩

/-- C8 as amended: `set_app_param_config` writes to the shared path
`short_config_path + '/' + app_config_path`; the written value is always of
the form `\x7b"url":"<url>"\x7d`, where `url` is `https://<host>/<env>` for a
truthy host and `str(host)` itself for a falsy one; in particular
host `api.example.com` with env `prod` yields
`\x7b"url":"https://api.example.com/prod"\x7d`. -/
theorem set_app_param_config_contract (appName typeName funcName env : String)
    (host : Option String) :
    (set_app_param_config appName typeName funcName env host =
      (short_config_path appName typeName ++ "/" ++ funcName,
       set_app_param_config_value env host)) ∧
    (∀ s, host = some s → s.isEmpty = false →
      set_app_param_config_value env host =
        "\x7b\"url\":\"" ++ ("https://" ++ s ++ "/" ++ env) ++ "\"\x7d") ∧
    (pyTruthy host = false →
      set_app_param_config_value env host =
        "\x7b\"url\":\"" ++ pyStr host ++ "\"\x7d") ∧
    (set_app_param_config_value "prod" (some "api.example.com") =
      "\x7b\"url\":\"https://api.example.com/prod\"\x7d") := by
  refine ⟨rfl, fun s hs hse => ?_, fun hf => ?_, rfl⟩
  · subst hs
    simp [set_app_param_config_value, pyTruthy, pyStr, hse]
  · simp [set_app_param_config_value, hf]

/-- Witness for C8 as amended at a concrete truthy host. -/
theorem set_app_param_config_contract_witness :
    ("api.example.com").isEmpty = false ∧
    set_app_param_config_value "prod" (some "api.example.com") =
      "\x7b\"url\":\"" ++ ("https://" ++ "api.example.com" ++ "/" ++ "prod") ++ "\"\x7d" :=
  ⟨rfl,
   (set_app_param_config_contract "app" "fn" "func" "prod" (some "api.example.com")).2.1
     "api.example.com" rfl rfl⟩

/-- C9 counterexample: a handler raising `SystemExit` (which subclasses
`BaseException`, not `Exception`) matches no `except` clause of `do_process`:
the exception escapes the dispatcher instead of producing the 400 error
response the claim requires for every exception. -/
theorem do_process_systemexit_cex :
    do_process false (.raises (.systemExit "0")) = .uncaught (.systemExit "0") ∧
    do_process false (.raises (.systemExit "0")) ≠
      .errorResponse "0" HTTP_400_BAD_REQUEST := by
  exact ⟨rfl, by decide⟩

/-- C9 as amended: a normal handler response passes through; every exception
caught by the `except` chain (each enumerated class and every other
`Exception` subclass, `KeyboardInterrupt` included) produces the redirect to
`"/400"` when the front-web flag is set and the
`\x7b"error": <message>\x7d` body with status 400 otherwise; exactly the
exceptions outside the chain — `SystemExit`, deriving from `BaseException`
only — escape the dispatcher. -/
theorem do_process_error_contract (frontWeb : Bool) (e : PyExc) (resp : String) :
    (do_process frontWeb (.ok resp) = .response resp) ∧
    (caughtByDispatcher e = true →
      do_process frontWeb (.raises e) =
        if frontWeb then .redirectTo ("/" ++ toString HTTP_400_BAD_REQUEST)
        else .errorResponse (excMessage e) HTTP_400_BAD_REQUEST) ∧
    (caughtByDispatcher e = false →
      do_process frontWeb (.raises e) = .uncaught e) ∧
    (caughtByDispatcher e = false ↔ ∃ m, e = .systemExit m) := by
  refine ⟨rfl, fun h => ?_, fun h => ?_, ?_⟩
  · simp [do_process, h]
  · simp [do_process, h]
  · cases e <;> simp [caughtByDispatcher]

/-- Witness for C9 as amended at a caught `ValueError` without the front-web
flag. -/
theorem do_process_error_contract_witness :
    caughtByDispatcher (.valueError "boom") = true ∧
    do_process false (.raises (.valueError "boom")) =
      .errorResponse "boom" HTTP_400_BAD_REQUEST :=
  ⟨rfl, by
    simpa using (do_process_error_contract false (.valueError "boom") "r").2.1 rfl⟩

/-- C10: when `get_param` takes the expired branch and the refreshed snapshot
still lacks the key, `self.cache` has already been reassigned to the fresh
snapshot before `CacheExpireError` is raised: the failed read leaves the
accessor holding the new items and a strictly later expiration. -/
theorem get_param_expired_miss_mutates (cfg : MyConfig) (key : String) (now : Int)
    (remote : String → String → SsmFetchOutcome)
    (hexp : cfg.cache.expiration < now)
    (hmiss : List.lookup key (load_config (remote cfg.region_name cfg.path)) = none) :
    get_param cfg key now remote =
      .ok ⟨⟨⟨now + DEFAULT_EXPIRY, load_config (remote cfg.region_name cfg.path)⟩,
            cfg.path, cfg.region_name⟩, .cacheExpireError "cache expired", 1⟩ ∧
    cfg.cache.expiration < now + DEFAULT_EXPIRY := by
  have hDE : (0 : Int) < DEFAULT_EXPIRY := by decide
  constructor
  · rw [get_param_of_gt cfg key now remote (not_le.mpr hexp), hmiss]
  · linarith

/-- Witness for C10 at an expired snapshot whose refresh comes back without
the key. -/
theorem get_param_expired_miss_mutates_witness :
    (0 : Int) < (7 : Int) ∧
    List.lookup "k" (load_config ((fun _ _ => .clientError "down") "r" "p")) = none ∧
    get_param ⟨⟨0, [("k", [])]⟩, "p", "r"⟩ "k" 7 (fun _ _ => .clientError "down") =
      .ok ⟨⟨⟨7 + DEFAULT_EXPIRY, []⟩, "p", "r"⟩, .cacheExpireError "cache expired", 1⟩ ∧
    (0 : Int) < 7 + DEFAULT_EXPIRY :=
  ⟨by decide, rfl,
   (get_param_expired_miss_mutates ⟨⟨0, [("k", [])]⟩, "p", "r"⟩ "k" 7
     (fun _ _ => .clientError "down") (by decide) rfl).1,
   (get_param_expired_miss_mutates ⟨⟨0, [("k", [])]⟩, "p", "r"⟩ "k" 7
     (fun _ _ => .clientError "down") (by decide) rfl).2⟩

end Halolib
